import Mathlib

/-!
# ClickConnector widget SDK facade: shallow embedding and verification

This file embeds the `ChatWidget` facade of `src/index.ts` (clickconnector-widget-sdk):
the script loader, the readiness poller started by `load`, the bounded readiness
waiter `waitForWidgetReady`, the checklist event bridge `onWidgetLoaded`, and the
guarded pass-through method facade.

Modelling conventions:
- The document is the list of element ids present in it, in insertion order;
  `document.getElementById(x)` is truthy iff `x` is a member of that list.
- The facade's static state (`widgetId`, `isLoaded`, the `events` emitter and the
  `checkListEvents` emitter) is the structure `SDKState`; emissions of the
  lifecycle "loaded" event are counted in `loadedEmits`, and the event names
  republished on `checkListEvents` are accumulated in order in `checkList`.
- Timers are modelled as explicit tick functions; one tick of the poller is one
  150 ms interval firing, one tick of the waiter is one 200 ms interval firing.
- Calls reaching the external handle `window.ccWidget` are recorded as `ExtCall`
  values, in call order; `console.warn` diagnostics are recorded as the list of
  warning strings. Promise settlement is first-settlement-wins (`settleOnce`).
- TypeScript `any` values that are forwarded verbatim are opaque tokens.
-/

namespace ClickConnector

/-- An opaque value (TypeScript `any`), only ever forwarded verbatim. -/
abbrev AnyValue := Nat

/-- `iLocalConversationMessage` of `src/index.ts`. -/
structure iLocalConversationMessage where
  text : String
  deriving DecidableEq, Repr

/-- `TicketData` of `src/index.ts`. -/
structure TicketData where
  firstName : String
  email : String
  query : String
  abc : Option String
  deriving DecidableEq, Repr

/-- `ActivityData` of `src/index.ts`: optional `type` and an open string-keyed map. -/
structure ActivityData where
  type : Option String
  data : List (String × String)
  deriving DecidableEq, Repr

/-- The inline company descriptor of `identify`'s argument. -/
structure CompanyInfo where
  id : Option String
  name : String
  deriving DecidableEq, Repr

/-- The inline user-identity argument of `identify`. -/
structure IdentifyUser where
  id : Option String
  firstName : Option String
  lastName : Option String
  primaryEmail : Option String
  primaryMobile : Option String
  company : Option CompanyInfo
  deriving DecidableEq, Repr

/-- The inline argument of `setUser`. -/
structure SetUserData where
  name : String
  email : String
  phone : String
  deriving DecidableEq, Repr

/-- The inline argument of `triggerInvite`. -/
structure TriggerInviteData where
  messages : List iLocalConversationMessage
  deriving DecidableEq, Repr

/-- The inline argument of `triggerCampaign`. -/
structure TriggerCampaignData where
  userId : Option String
  message : Option String
  chatBotId : Option String
  deriving DecidableEq, Repr

/-- The `mode` field of a trackers embed config. -/
inductive TrackerMode where
  | list
  | kanban
  deriving DecidableEq, Repr

/-- `iEmbedConfig` of `src/index.ts`: the discriminated union of the three embed
shapes (`iKBEmbedConfig`, `iTrackersEmbedConfig`, `iNewsfeedEmbedConfig`), each
with the shared `portalUrl` and optional `isDarkMode` of `iEmbedBase`. -/
inductive iEmbedConfig where
  | KB (portalUrl : String) (isDarkMode : Option Bool) (articleId : Option String)
  | TRACKERS (portalUrl : String) (isDarkMode : Option Bool) (trackerId : String)
      (mode : TrackerMode)
  | NEWSFEED (portalUrl : String) (isDarkMode : Option Bool) (newsfeedId : Option String)
  deriving DecidableEq, Repr

/-- A call that reaches the external handle `window.ccWidget`, with its arguments
exactly as forwarded. Constructor names are the handle method names (note the
handle spelling `activateCheckList` used by the facade's `activateChecklist`). -/
inductive ExtCall where
  | setThemeColor (hexColor : String)
  | setWidgetVisibility (visibility : Bool)
  | identify (user : IdentifyUser)
  | setUser (user : SetUserData)
  | resetSession
  | triggerInvite (data : TriggerInviteData)
  | triggerCampaign (data : TriggerCampaignData)
  | dismissAllCampaigns
  | createTicket (data : TicketData)
  | setSubjectLine (subject : String)
  | navigateToArticle (articleId : String)
  | logActivity (data : ActivityData)
  | startTour (tourId : String)
  | showActiveChecklist
  | activateCheckList (checkListId : String)
  | attachTourBeforeShow (stepNumber : Int) (promise : AnyValue)
  | cancelTour
  | showEmbed (config : iEmbedConfig)
  | addToEmailSeries (sequenceId : String) (forceAdd : Option Bool)
  deriving DecidableEq, Repr

/-- The facade's static state: `ChatWidget.widgetId` (unassigned at first),
`ChatWidget.isLoaded`, the lifecycle `events` emitter (modelled by the count of
"loaded" emissions), the `checkListEvents` emitter (modelled by the ordered list
of event names republished on it), whether `onWidgetLoaded` has attached the
bridge listener, and whether the poller interval started by `load` is running. -/
structure SDKState where
  widgetId : Option String
  isLoaded : Bool
  loadedEmits : Nat
  checkList : List String
  bridgeAttached : Bool
  pollerActive : Bool
  deriving DecidableEq, Repr

/-- The state at page start: class initializers of `ChatWidget`. -/
def initialState : SDKState :=
  { widgetId := none
    isLoaded := false
    loadedEmits := 0
    checkList := []
    bridgeAttached := false
    pollerActive := false }

namespace ChatWidget

/-- `_checkIfWidgetLoadedBefore`: returns whether the action may proceed, together
with the `console.warn` diagnostics it emits (two warnings when not loaded). -/
def _checkIfWidgetLoadedBefore (isLoaded : Bool) : Bool × List String :=
  if !isLoaded then
    (false,
      ["ClickConnector widget is not loaded yet; Action cannot be performed",
       "You can use \x27ChatWidgetSDK.isReady\x27 to check if the widget is loaded. Alternatively, you can simply use \x27ChatWidgetSDK.onReady()\x27 to wait before performing an action. Eg - ChatWidgetSDK.onReady().then((SDK)=> SDK.someAction())"])
  else (true, [])

/-- The `isReady` getter. -/
def isReady (s : SDKState) : Bool := s.isLoaded

/-- Outcome of a `load` call: either the script element was already present and
the returned promise resolved immediately, or the script was inserted and the
poller interval was started (the promise stays pending until the poller fires). -/
inductive LoadOutcome where
  | alreadyPresent
  | pollerStarted
  deriving DecidableEq, Repr

/-- `load(widgetId)` up to its first suspension point: records the widget id,
then either returns at once (element `cc-widget-script` already in the document)
or appends the script element and starts the readiness poller. -/
def load (s : SDKState) (doc : List String) (widgetId : String) :
    SDKState × List String × LoadOutcome :=
  let s := { s with widgetId := some widgetId }
  if "cc-widget-script" ∈ doc then
    (s, doc, LoadOutcome.alreadyPresent)
  else
    ({ s with pollerActive := true }, doc ++ ["cc-widget-script"], LoadOutcome.pollerStarted)

/-- One firing of the poller interval started by `load`: if the poller is still
running and `window` now owns `ccWidget`, it clears its interval, sets
`isLoaded`, emits the lifecycle "loaded" event, and runs `onWidgetLoaded`
(attaching the checklist bridge); otherwise nothing changes. -/
def pollerTick (windowHasCcWidget : Bool) (s : SDKState) : SDKState :=
  if s.pollerActive && windowHasCcWidget then
    { s with pollerActive := false
             isLoaded := true
             loadedEmits := s.loadedEmits + 1
             bridgeAttached := true }
  else s

/-- Run the poller over a trace of interval firings; each `Bool` is whether
`window` owned `ccWidget` at that firing. -/
def runPoller (s : SDKState) : List Bool → SDKState
  | [] => s
  | b :: bs => runPoller (pollerTick b s) bs

/-- The bridge listener installed by `onWidgetLoaded`: republishes the event
name received on the handle's "check-list-event" channel onto the facade's
`checkListEvents` emitter, unchanged. -/
def onCheckListEvent (s : SDKState) (eventName : String) : SDKState :=
  { s with checkList := s.checkList ++ [eventName] }

/-- The external handle emits `eventName` on its "check-list-event" channel: the
bridge listener fires exactly when it has been attached. -/
def emitCheckListEvent (s : SDKState) (eventName : String) : SDKState :=
  if s.bridgeAttached then onCheckListEvent s eventName else s

/-- A sequence of emissions on the handle's "check-list-event" channel, in order. -/
def runCheckListEvents (s : SDKState) : List String → SDKState
  | [] => s
  | e :: es => runCheckListEvents (emitCheckListEvent s e) es

/-- Settlement of the waiter promise. -/
inductive WaiterResult where
  | resolved
  | rejected (msg : String)
  deriving DecidableEq, Repr

/-- The observable state of one `waitForWidgetReady` call: its `hops` counter,
whether its interval timer is still installed, and how its promise settled (a
promise settles at most once). -/
structure WaiterState where
  hops : Nat
  timerActive : Bool
  settled : Option WaiterResult
  deriving DecidableEq, Repr

/-- A promise settles only once: later `res`/`rej` calls are ignored. -/
def settleOnce (cur : Option WaiterResult) (r : WaiterResult) : Option WaiterResult :=
  match cur with
  | some r0 => some r0
  | none => some r

/-- `waitForWidgetReady()` at call time: resolves at once when `isLoaded`,
otherwise installs the 200 ms interval with `hops = 0`. -/
def waitForWidgetReady (isLoaded : Bool) : WaiterState :=
  if isLoaded then { hops := 0, timerActive := false, settled := some WaiterResult.resolved }
  else { hops := 0, timerActive := true, settled := none }

/-- One firing of the waiter's 200 ms interval: `hops++`; if `isReady`, resolve
(the source does not clear the interval on this branch); else once `hops > 20`,
clear the interval and reject with the timeout message. -/
def waiterTick (isReady : Bool) (w : WaiterState) : WaiterState :=
  if w.timerActive then
    let hops := w.hops + 1
    if isReady then
      { hops := hops
        timerActive := w.timerActive
        settled := settleOnce w.settled WaiterResult.resolved }
    else if hops > 20 then
      { hops := hops
        timerActive := false
        settled := settleOnce w.settled (WaiterResult.rejected "Timeout: Widget not loaded yet") }
    else
      { hops := hops, timerActive := w.timerActive, settled := w.settled }
  else w

/-- Run the waiter over a trace of interval firings; each `Bool` is the value of
`isReady` (that is, `isLoaded`) at that firing. -/
def runWaiter (w : WaiterState) : List Bool → WaiterState
  | [] => w
  | b :: bs => runWaiter (waiterTick b w) bs

/-- `setThemeColor(hexColor)`. -/
def setThemeColor (s : SDKState) (hexColor : String) : SDKState × List ExtCall × List String :=
  match _checkIfWidgetLoadedBefore s.isLoaded with
  | (false, warns) => (s, [], warns)
  | (true, warns) => (s, [ExtCall.setThemeColor hexColor], warns)

/-- The `isWidgetVisible` getter: safe default `false` when not loaded, else the
handle's `isWidgetVisible`. -/
def isWidgetVisible (s : SDKState) (extIsWidgetVisible : Bool) : Bool × List String :=
  match _checkIfWidgetLoadedBefore s.isLoaded with
  | (false, warns) => (false, warns)
  | (true, warns) => (extIsWidgetVisible, warns)

/-- `setWidgetVisibility(visibility)`. -/
def setWidgetVisibility (s : SDKState) (visibility : Bool) :
    SDKState × List ExtCall × List String :=
  match _checkIfWidgetLoadedBefore s.isLoaded with
  | (false, warns) => (s, [], warns)
  | (true, warns) => (s, [ExtCall.setWidgetVisibility visibility], warns)

/-- `identify(user)`. -/
def identify (s : SDKState) (user : IdentifyUser) : SDKState × List ExtCall × List String :=
  match _checkIfWidgetLoadedBefore s.isLoaded with
  | (false, warns) => (s, [], warns)
  | (true, warns) => (s, [ExtCall.identify user], warns)

/-- `setUser(user)`. -/
def setUser (s : SDKState) (user : SetUserData) : SDKState × List ExtCall × List String :=
  match _checkIfWidgetLoadedBefore s.isLoaded with
  | (false, warns) => (s, [], warns)
  | (true, warns) => (s, [ExtCall.setUser user], warns)

/-- `resetSession()`. -/
def resetSession (s : SDKState) : SDKState × List ExtCall × List String :=
  match _checkIfWidgetLoadedBefore s.isLoaded with
  | (false, warns) => (s, [], warns)
  | (true, warns) => (s, [ExtCall.resetSession], warns)

/-- `triggerInvite(data)`. -/
def triggerInvite (s : SDKState) (data : TriggerInviteData) :
    SDKState × List ExtCall × List String :=
  match _checkIfWidgetLoadedBefore s.isLoaded with
  | (false, warns) => (s, [], warns)
  | (true, warns) => (s, [ExtCall.triggerInvite data], warns)

/-- `triggerCampaign(data)`. -/
def triggerCampaign (s : SDKState) (data : TriggerCampaignData) :
    SDKState × List ExtCall × List String :=
  match _checkIfWidgetLoadedBefore s.isLoaded with
  | (false, warns) => (s, [], warns)
  | (true, warns) => (s, [ExtCall.triggerCampaign data], warns)

/-- `dismissAllCampaigns()`. -/
def dismissAllCampaigns (s : SDKState) : SDKState × List ExtCall × List String :=
  match _checkIfWidgetLoadedBefore s.isLoaded with
  | (false, warns) => (s, [], warns)
  | (true, warns) => (s, [ExtCall.dismissAllCampaigns], warns)

/-- `createTicket(data)`. -/
def createTicket (s : SDKState) (data : TicketData) : SDKState × List ExtCall × List String :=
  match _checkIfWidgetLoadedBefore s.isLoaded with
  | (false, warns) => (s, [], warns)
  | (true, warns) => (s, [ExtCall.createTicket data], warns)

/-- `setSubjectLine(subject)`. -/
def setSubjectLine (s : SDKState) (subject : String) : SDKState × List ExtCall × List String :=
  match _checkIfWidgetLoadedBefore s.isLoaded with
  | (false, warns) => (s, [], warns)
  | (true, warns) => (s, [ExtCall.setSubjectLine subject], warns)

/-- `navigateToArticle(articleId)`. -/
def navigateToArticle (s : SDKState) (articleId : String) :
    SDKState × List ExtCall × List String :=
  match _checkIfWidgetLoadedBefore s.isLoaded with
  | (false, warns) => (s, [], warns)
  | (true, warns) => (s, [ExtCall.navigateToArticle articleId], warns)

/-- `logActivity(data)`. -/
def logActivity (s : SDKState) (data : ActivityData) : SDKState × List ExtCall × List String :=
  match _checkIfWidgetLoadedBefore s.isLoaded with
  | (false, warns) => (s, [], warns)
  | (true, warns) => (s, [ExtCall.logActivity data], warns)

/-- `startTour(tourId)`. -/
def startTour (s : SDKState) (tourId : String) : SDKState × List ExtCall × List String :=
  match _checkIfWidgetLoadedBefore s.isLoaded with
  | (false, warns) => (s, [], warns)
  | (true, warns) => (s, [ExtCall.startTour tourId], warns)

/-- `showActiveChecklist()`. -/
def showActiveChecklist (s : SDKState) : SDKState × List ExtCall × List String :=
  match _checkIfWidgetLoadedBefore s.isLoaded with
  | (false, warns) => (s, [], warns)
  | (true, warns) => (s, [ExtCall.showActiveChecklist], warns)

/-- `activateChecklist(checkListId)`: forwards to the handle's `activateCheckList`. -/
def activateChecklist (s : SDKState) (checkListId : String) :
    SDKState × List ExtCall × List String :=
  match _checkIfWidgetLoadedBefore s.isLoaded with
  | (false, warns) => (s, [], warns)
  | (true, warns) => (s, [ExtCall.activateCheckList checkListId], warns)

/-- `attachTourBeforeShow(stepNumber, promise)`. -/
def attachTourBeforeShow (s : SDKState) (stepNumber : Int) (promise : AnyValue) :
    SDKState × List ExtCall × List String :=
  match _checkIfWidgetLoadedBefore s.isLoaded with
  | (false, warns) => (s, [], warns)
  | (true, warns) => (s, [ExtCall.attachTourBeforeShow stepNumber promise], warns)

/-- `cancelTour()`. -/
def cancelTour (s : SDKState) : SDKState × List ExtCall × List String :=
  match _checkIfWidgetLoadedBefore s.isLoaded with
  | (false, warns) => (s, [], warns)
  | (true, warns) => (s, [ExtCall.cancelTour], warns)

/-- `showEmbed(config)`. -/
def showEmbed (s : SDKState) (config : iEmbedConfig) : SDKState × List ExtCall × List String :=
  match _checkIfWidgetLoadedBefore s.isLoaded with
  | (false, warns) => (s, [], warns)
  | (true, warns) => (s, [ExtCall.showEmbed config], warns)

/-- `addToEmailSeries(sequenceId, forceAdd?)`. -/
def addToEmailSeries (s : SDKState) (sequenceId : String) (forceAdd : Option Bool) :
    SDKState × List ExtCall × List String :=
  match _checkIfWidgetLoadedBefore s.isLoaded with
  | (false, warns) => (s, [], warns)
  | (true, warns) => (s, [ExtCall.addToEmailSeries sequenceId forceAdd], warns)

/-- One invocation of a guarded Method Facade operation, with its argument. The
constructors are exactly the nineteen guarded void methods of `ChatWidget`. -/
inductive MethodCall where
  | setThemeColor (hexColor : String)
  | setWidgetVisibility (visibility : Bool)
  | identify (user : IdentifyUser)
  | setUser (user : SetUserData)
  | resetSession
  | triggerInvite (data : TriggerInviteData)
  | triggerCampaign (data : TriggerCampaignData)
  | dismissAllCampaigns
  | createTicket (data : TicketData)
  | setSubjectLine (subject : String)
  | navigateToArticle (articleId : String)
  | logActivity (data : ActivityData)
  | startTour (tourId : String)
  | showActiveChecklist
  | activateChecklist (checkListId : String)
  | attachTourBeforeShow (stepNumber : Int) (promise : AnyValue)
  | cancelTour
  | showEmbed (config : iEmbedConfig)
  | addToEmailSeries (sequenceId : String) (forceAdd : Option Bool)
  deriving DecidableEq, Repr

/-- Dispatch one Method Facade invocation to the embedded method. The result is
the facade state after the call, the calls that reached the external handle, and
the warnings written to the console (the methods themselves return no value). -/
def callMethod (s : SDKState) : MethodCall → SDKState × List ExtCall × List String
  | MethodCall.setThemeColor hexColor => setThemeColor s hexColor
  | MethodCall.setWidgetVisibility visibility => setWidgetVisibility s visibility
  | MethodCall.identify user => identify s user
  | MethodCall.setUser user => setUser s user
  | MethodCall.resetSession => resetSession s
  | MethodCall.triggerInvite data => triggerInvite s data
  | MethodCall.triggerCampaign data => triggerCampaign s data
  | MethodCall.dismissAllCampaigns => dismissAllCampaigns s
  | MethodCall.createTicket data => createTicket s data
  | MethodCall.setSubjectLine subject => setSubjectLine s subject
  | MethodCall.navigateToArticle articleId => navigateToArticle s articleId
  | MethodCall.logActivity data => logActivity s data
  | MethodCall.startTour tourId => startTour s tourId
  | MethodCall.showActiveChecklist => showActiveChecklist s
  | MethodCall.activateChecklist checkListId => activateChecklist s checkListId
  | MethodCall.attachTourBeforeShow stepNumber promise =>
      attachTourBeforeShow s stepNumber promise
  | MethodCall.cancelTour => cancelTour s
  | MethodCall.showEmbed config => showEmbed s config
  | MethodCall.addToEmailSeries sequenceId forceAdd => addToEmailSeries s sequenceId forceAdd

/-- Run a sequence of `load(widgetId)` calls, threading facade state and document. -/
def runLoads (s : SDKState) (doc : List String) : List String → SDKState × List String
  | [] => (s, doc)
  | wid :: rest =>
      match load s doc wid with
      | (s2, d2, _) => runLoads s2 d2 rest

end ChatWidget

/-- The whole page world: the facade state, the document, and the state of one
`waitForWidgetReady` call. -/
structure World where
  sdk : SDKState
  doc : List String
  waiter : ChatWidget.WaiterState
  deriving DecidableEq, Repr

/-- Every operation of the facade that can touch its state: a `load` call, a
firing of the poller started by `load`, a `waitForWidgetReady` call, a firing of
that waiter's interval, a guarded Method Facade call, and an emission on the
external handle's "check-list-event" channel. -/
inductive Op where
  | loadCall (widgetId : String)
  | pollTick (windowHasCcWidget : Bool)
  | waitCall
  | waitTick
  | facadeCall (m : ChatWidget.MethodCall)
  | checkListEmit (eventName : String)
  deriving DecidableEq, Repr

/-- Apply one operation to the world. -/
def applyOp (w : World) : Op → World
  | Op.loadCall widgetId =>
      match ChatWidget.load w.sdk w.doc widgetId with
      | (s, d, _) => { w with sdk := s, doc := d }
  | Op.pollTick h => { w with sdk := ChatWidget.pollerTick h w.sdk }
  | Op.waitCall => { w with waiter := ChatWidget.waitForWidgetReady w.sdk.isLoaded }
  | Op.waitTick => { w with waiter := ChatWidget.waiterTick (ChatWidget.isReady w.sdk) w.waiter }
  | Op.facadeCall m =>
      match ChatWidget.callMethod w.sdk m with
      | (s, _, _) => { w with sdk := s }
  | Op.checkListEmit e => { w with sdk := ChatWidget.emitCheckListEvent w.sdk e }

/-! ## Helper lemmas -/

open ChatWidget

/-- No Method Facade call ever mutates the facade state, loaded or not: each
method only reads `isLoaded` and forwards (or warns). -/
theorem callMethod_state_eq (s : SDKState) (m : MethodCall) : (callMethod s m).1 = s := by
  cases m <;> cases h : s.isLoaded <;>
    simp [callMethod, setThemeColor, setWidgetVisibility, identify, setUser, resetSession,
      triggerInvite, triggerCampaign, dismissAllCampaigns, createTicket, setSubjectLine,
      navigateToArticle, logActivity, startTour, showActiveChecklist, activateChecklist,
      attachTourBeforeShow, cancelTour, showEmbed, addToEmailSeries,
      _checkIfWidgetLoadedBefore, h]

/-- Running the poller distributes over trace concatenation. -/
theorem runPoller_append (s : SDKState) (as bs : List Bool) :
    runPoller s (as ++ bs) = runPoller (runPoller s as) bs := by
  induction as generalizing s with
  | nil => rfl
  | cons a rest ih => simpa [runPoller] using ih (pollerTick a s)

/-- A poller tick at which the handle is absent changes nothing. -/
theorem pollerTick_false (s : SDKState) : pollerTick false s = s := by
  simp [pollerTick]

/-- Over a trace on which the handle is never present, the poller is inert. -/
theorem runPoller_no_handle (s : SDKState) (xs : List Bool) (h : ∀ b ∈ xs, b = false) :
    runPoller s xs = s := by
  induction xs generalizing s with
  | nil => rfl
  | cons x rest ih =>
      have hx : x = false := h x (List.mem_cons_self x rest)
      subst hx
      rw [runPoller, pollerTick_false]
      exact ih s fun b hb => h b (List.mem_cons_of_mem _ hb)

/-- Once the poller has cleared its interval, no trace changes the state. -/
theorem runPoller_inactive (s : SDKState) (xs : List Bool) (h : s.pollerActive = false) :
    runPoller s xs = s := by
  induction xs generalizing s with
  | nil => rfl
  | cons x rest ih =>
      have ht : pollerTick x s = s := by simp [pollerTick, h]
      rw [runPoller, ht]
      exact ih s h

/-- Once the script element is in the document, further `load` calls leave the
document as it is. -/
theorem runLoads_mem (s : SDKState) (doc : List String) (wids : List String)
    (h : "cc-widget-script" ∈ doc) : (runLoads s doc wids).2 = doc := by
  induction wids generalizing s with
  | nil => rfl
  | cons w rest ih =>
      rw [runLoads, load]
      simp only [h, if_true]
      exact ih _

/-! ## Claims -/

/-- Claim C1 (amended): every Method Facade operation, at every argument, when
called while `isLoaded` is false, lets no call reach the external handle,
produces exactly two warning-level diagnostics (the not-loaded warning and the
usage-hint warning of `_checkIfWidgetLoadedBefore`), throws no error and
returns no value (the embedded methods are total and return only the unchanged
state and the logs). -/
theorem facade_not_loaded_no_forward_two_warnings
    (s : SDKState) (m : MethodCall) (h : s.isLoaded = false) :
    (callMethod s m).2.1 = [] ∧ (callMethod s m).2.2.length = 2 := by
  cases m <;>
    simp [callMethod, setThemeColor, setWidgetVisibility, identify, setUser, resetSession,
      triggerInvite, triggerCampaign, dismissAllCampaigns, createTicket, setSubjectLine,
      navigateToArticle, logActivity, startTour, showActiveChecklist, activateChecklist,
      attachTourBeforeShow, cancelTour, showEmbed, addToEmailSeries,
      _checkIfWidgetLoadedBefore, h]

/-- Claim C1 witness: `resetSession` on the initial (not loaded) state forwards
nothing and warns twice. -/
theorem facade_not_loaded_no_forward_two_warnings_witness :
    (callMethod initialState MethodCall.resetSession).2.1 = [] ∧
    (callMethod initialState MethodCall.resetSession).2.2.length = 2 :=
  facade_not_loaded_no_forward_two_warnings initialState MethodCall.resetSession rfl

/-- Claim C1 counterexample: `setThemeColor("#112233")` issued while the widget
is not loaded emits two warning-level diagnostics, not exactly one as claimed. -/
theorem setThemeColor_not_loaded_warns_twice_not_once :
    ¬ (callMethod initialState (MethodCall.setThemeColor "#112233")).2.2.length = 1 := by
  decide

/-- Claim C10: frame property of the not-ready guard: a guarded Method Facade
call made while `isLoaded` is false leaves the whole facade state (`widgetId`,
`isLoaded`, the lifecycle event stream and the `checkListEvents` stream)
exactly as it was. -/
theorem facade_not_loaded_frame (s : SDKState) (m : MethodCall)
    (h : s.isLoaded = false) : (callMethod s m).1 = s :=
  callMethod_state_eq s m

/-- Claim C10 witness: `startTour` on the initial state leaves it unchanged. -/
theorem facade_not_loaded_frame_witness :
    (callMethod initialState (MethodCall.startTour "tour-1")).1 = initialState :=
  facade_not_loaded_frame initialState (MethodCall.startTour "tour-1") rfl

/-- Claim C8: with `isLoaded` true, `showEmbed` on a `"TRACKERS"` configuration
`{type, portalUrl, trackerId, mode := kanban}` (no dark-mode field) delivers to
the external handle exactly one `showEmbed` call carrying exactly that
configuration, unmodified, with no warnings and no state change. -/
theorem showEmbed_trackers_roundtrip (s : SDKState) (portalUrl trackerId : String)
    (h : s.isLoaded = true) :
    callMethod s (MethodCall.showEmbed
        (iEmbedConfig.TRACKERS portalUrl none trackerId TrackerMode.kanban)) =
      (s, [ExtCall.showEmbed
        (iEmbedConfig.TRACKERS portalUrl none trackerId TrackerMode.kanban)], []) := by
  simp [callMethod, showEmbed, _checkIfWidgetLoadedBefore, h]

/-- Claim C8 witness: a concrete trackers config round-trips once loaded. -/
theorem showEmbed_trackers_roundtrip_witness :
    callMethod { initialState with isLoaded := true }
        (MethodCall.showEmbed
          (iEmbedConfig.TRACKERS "https://portal.example.com" none "tracker-1"
            TrackerMode.kanban)) =
      ({ initialState with isLoaded := true },
        [ExtCall.showEmbed
          (iEmbedConfig.TRACKERS "https://portal.example.com" none "tracker-1"
            TrackerMode.kanban)], []) :=
  showEmbed_trackers_roundtrip { initialState with isLoaded := true }
    "https://portal.example.com" "tracker-1" rfl

/-- Claim C2 (amended): with `isLoaded` false at call time and false throughout,
the waiter's promise is still pending after any of the first 20 interval
firings (that is, after the claimed 20 × 200 ms = 4000 ms budget), and rejects
exactly at the 21st firing — the counter must exceed 20 — i.e. after
21 × 200 ms = 4200 ms, carrying the message "Timeout: Widget not loaded yet". -/
theorem waiter_rejects_on_tick_21 :
    (∀ n < 21,
      (runWaiter (waitForWidgetReady false) (List.replicate n false)).settled = none) ∧
    (runWaiter (waitForWidgetReady false) (List.replicate 21 false)).settled =
      some (WaiterResult.rejected "Timeout: Widget not loaded yet") := by
  constructor
  · decide
  · decide

/-- Claim C2 witness: after 20 firings with the widget still not loaded, the
waiter has not settled yet. -/
theorem waiter_rejects_on_tick_21_witness :
    (runWaiter (waitForWidgetReady false) (List.replicate 20 false)).settled = none :=
  waiter_rejects_on_tick_21.1 20 (by decide)

/-- Claim C2 counterexample: the claim as stated is false — after the 20
attempts × 200 ms it names, the promise has not rejected (it is still pending);
the rejection only happens at the 21st firing. -/
theorem waiter_not_rejected_after_20_ticks :
    (runWaiter (waitForWidgetReady false) (List.replicate 20 false)).settled = none ∧
    (runWaiter (waitForWidgetReady false) (List.replicate 21 false)).settled ≠ none := by
  decide

/-- Claim C3 (code bug): when the waiter resolves upon observing readiness, the
source never calls `clearInterval` on that branch, so after resolution the
interval timer is still installed and fires again (here: a second firing still
increments `hops`); only the rejection branch clears the timer. -/
theorem waiter_success_leaves_timer_active :
    (waiterTick true (waitForWidgetReady false)).settled = some WaiterResult.resolved ∧
    (waiterTick true (waitForWidgetReady false)).timerActive = true ∧
    (waiterTick true (waiterTick true (waitForWidgetReady false))).hops = 2 := by
  decide

/-- Claim C4: `load` is idempotent with respect to script insertion: a `load`
call on a document already holding the element with id "cc-widget-script"
changes the document not at all, and from a document with no such element any
nonempty sequence of `load` calls ends with exactly one element bearing that
id. -/
theorem load_idempotent_script_insertion
    (s1 : SDKState) (doc1 : List String) (wid : String)
    (s2 : SDKState) (doc2 : List String) (wids : List String)
    (h1 : "cc-widget-script" ∈ doc1)
    (h2 : doc2.count "cc-widget-script" = 0)
    (h3 : wids ≠ []) :
    (load s1 doc1 wid).2.1 = doc1 ∧
    ((runLoads s2 doc2 wids).2).count "cc-widget-script" = 1 := by
  constructor
  · simp [load, h1]
  · match wids, h3 with
    | w :: rest, _ =>
        have hmem : "cc-widget-script" ∉ doc2 := by
          rw [← List.count_eq_zero]
          exact h2
        rw [runLoads, load]
        simp only [hmem, if_false, if_neg hmem]
        rw [runLoads_mem _ _ rest (by simp)]
        simp [List.count_append, h2]

/-- Claim C4 witness: inserting on an empty document across two `load` calls
yields exactly one script element; a `load` on a document already holding it
leaves that document unchanged. -/
theorem load_idempotent_script_insertion_witness :
    (load initialState ["cc-widget-script"] "wid-1").2.1 = ["cc-widget-script"] ∧
    ((runLoads initialState [] ["wid-1", "wid-2"]).2).count "cc-widget-script" = 1 :=
  load_idempotent_script_insertion initialState ["cc-widget-script"] "wid-1"
    initialState [] ["wid-1", "wid-2"] (by decide) (by decide) (by decide)

/-- Claim C5: `isLoaded` is monotonic: no operation of the facade — a `load`
call, a poller firing, a `waitForWidgetReady` call or one of its interval
firings, a guarded Method Facade call, or a checklist emission — ever takes
`isLoaded` from true back to false, so it transitions at most once. -/
theorem isLoaded_monotone (w : World) (op : Op) (h : w.sdk.isLoaded = true) :
    (applyOp w op).sdk.isLoaded = true := by
  cases op with
  | loadCall wid =>
      rw [applyOp, load]
      by_cases hm : "cc-widget-script" ∈ w.doc <;> simp [hm, h]
  | pollTick hh =>
      rw [applyOp, pollerTick]
      by_cases hp : (w.sdk.pollerActive && hh) = true <;> simp [hp, h]
  | waitCall => simpa [applyOp] using h
  | waitTick => simpa [applyOp] using h
  | facadeCall m =>
      have hs := callMethod_state_eq w.sdk m
      rw [applyOp]
      cases hc : callMethod w.sdk m with
      | mk s rest =>
          have : s = w.sdk := by rw [hc] at hs; exact hs
          simp [this, h]
  | checkListEmit e =>
      rw [applyOp, emitCheckListEvent]
      by_cases hb : w.sdk.bridgeAttached = true <;> simp [hb, onCheckListEvent, h]

/-- Claim C5 witness: applying a poller firing to a loaded world keeps
`isLoaded` true. -/
theorem isLoaded_monotone_witness :
    (applyOp
      { sdk := { initialState with isLoaded := true }
        doc := []
        waiter := waitForWidgetReady true }
      (Op.pollTick false)).sdk.isLoaded = true :=
  isLoaded_monotone
    { sdk := { initialState with isLoaded := true }
      doc := []
      waiter := waitForWidgetReady true }
    (Op.pollTick false) rfl

/-- Claim C6: for a running poller with no "loaded" emission yet, once the
global handle becomes detectable the poller sets `isLoaded` at that very firing
(within one polling interval), emits the lifecycle "loaded" event exactly once,
and over any further trace of firings the emission count stays exactly one —
never zero, never more than one. -/
theorem loaded_event_fires_exactly_once
    (s : SDKState) (xs ys : List Bool)
    (hxs : ∀ b ∈ xs, b = false)
    (hact : s.pollerActive = true)
    (hem : s.loadedEmits = 0) :
    (runPoller s (xs ++ [true])).isLoaded = true ∧
    (runPoller s (xs ++ [true])).loadedEmits = 1 ∧
    (runPoller (runPoller s (xs ++ [true])) ys).loadedEmits = 1 := by
  have h1 : runPoller s (xs ++ [true]) = pollerTick true s := by
    rw [runPoller_append, runPoller_no_handle s xs hxs]
    rfl
  have h2 : pollerTick true s =
      { s with pollerActive := false
               isLoaded := true
               loadedEmits := s.loadedEmits + 1
               bridgeAttached := true } := by
    simp [pollerTick, hact]
  refine ⟨?_, ?_, ?_⟩
  · rw [h1, h2]
  · rw [h1, h2]
    simp [hem]
  · rw [h1, h2, runPoller_inactive _ ys rfl]
    simp [hem]

/-- Claim C6 witness: at a concrete trace (one empty firing, then detection,
then two more firings) the "loaded" event count is exactly one. -/
theorem loaded_event_fires_exactly_once_witness :
    (runPoller { initialState with pollerActive := true } ([false] ++ [true])).isLoaded
        = true ∧
    (runPoller { initialState with pollerActive := true } ([false] ++ [true])).loadedEmits
        = 1 ∧
    (runPoller (runPoller { initialState with pollerActive := true } ([false] ++ [true]))
        [true, false]).loadedEmits = 1 :=
  loaded_event_fires_exactly_once { initialState with pollerActive := true }
    [false] [true, false] (by decide) rfl rfl

/-- Claim C7: event bridge fidelity: once the bridge is attached, any sequence
of event names emitted on the handle's "check-list-event" channel is appended
to the facade's `checkListEvents` stream exactly as emitted — no loss, no
duplication, no reordering, no transformation. -/
theorem bridge_fidelity (s : SDKState) (es : List String)
    (h : s.bridgeAttached = true) :
    (runCheckListEvents s es).checkList = s.checkList ++ es := by
  induction es generalizing s with
  | nil => simp [runCheckListEvents]
  | cons e rest ih =>
      rw [runCheckListEvents, emitCheckListEvent]
      simp only [h, if_true]
      rw [ih (onCheckListEvent s e) (by simp [onCheckListEvent, h])]
      simp [onCheckListEvent]

/-- Claim C7 witness: two concrete emissions after attachment republish exactly
those two names in order. -/
theorem bridge_fidelity_witness :
    (runCheckListEvents { initialState with bridgeAttached := true }
        ["cta-clicked", "step-done"]).checkList = ["cta-clicked", "step-done"] := by
  have h := bridge_fidelity { initialState with bridgeAttached := true }
    ["cta-clicked", "step-done"] rfl
  simpa [initialState] using h

/-- Claim C9: when the script element "cc-widget-script" is already in the
document, `load(widgetId)` records the widget id and returns with an
immediately resolved promise: the document is untouched, no poller is started,
`isLoaded` is not set, and no "loaded" event is emitted — so the promise can
resolve while `isLoaded` is still false. -/
theorem load_already_present (s : SDKState) (doc : List String) (wid : String)
    (h : "cc-widget-script" ∈ doc) :
    load s doc wid = ({ s with widgetId := some wid }, doc, LoadOutcome.alreadyPresent) ∧
    (load s doc wid).1.isLoaded = s.isLoaded ∧
    (load s doc wid).1.loadedEmits = s.loadedEmits ∧
    (load s doc wid).1.pollerActive = s.pollerActive := by
  refine ⟨?_, ?_, ?_, ?_⟩ <;> simp [load, h]

/-- Claim C9 witness: on the fresh state with the script already present, the
`load` promise resolves immediately while `isLoaded` is still false. -/
theorem load_already_present_witness :
    load initialState ["cc-widget-script"] "wid-9" =
      ({ initialState with widgetId := some "wid-9" }, ["cc-widget-script"],
        LoadOutcome.alreadyPresent) ∧
    (load initialState ["cc-widget-script"] "wid-9").1.isLoaded = initialState.isLoaded ∧
    (load initialState ["cc-widget-script"] "wid-9").1.loadedEmits
        = initialState.loadedEmits ∧
    (load initialState ["cc-widget-script"] "wid-9").1.pollerActive
        = initialState.pollerActive :=
  load_already_present initialState ["cc-widget-script"] "wid-9" (by decide)

end ClickConnector
